import Mathlib

/-!
Shallow embedding of the Kubernetes job worker (`k8s-worker/k8s.py`):
job-name sanitisation, manifest compilation, container-environment
construction, the pod readiness polling loop, the session registry
state machine (`start` / `stop`), remote command execution and log
pagination.  Theorems at the end settle the specification claims.
-/

namespace K8s

/-! ### Association-list maps (model of Python `dict` keyed by strings) -/

/-- Lookup in an association list (first match wins, as in a Python dict
where each key occurs at most once). -/
def mlookup {α : Type} : List (String × α) → String → Option α
  | [], _ => none
  | p :: t, k => if p.1 = k then some p.2 else mlookup t k

/-- `d[k] = v` on a Python dict: replace any old binding of `k`. -/
def mset {α : Type} (m : List (String × α)) (k : String) (v : α) : List (String × α) :=
  (k, v) :: m.filter (fun p => p.1 ≠ k)

/-- `d.pop(k, None)` on a Python dict: drop every binding of `k`. -/
def mpop {α : Type} (m : List (String × α)) (k : String) : List (String × α) :=
  m.filter (fun p => p.1 ≠ k)

/-- `d.setdefault(k, v)`: bind `k` at the end only when absent. -/
def msetdefault {α : Type} (m : List (String × α)) (k : String) (v : α) :
    List (String × α) :=
  if (mlookup m k).isSome then m else m ++ [(k, v)]

/-! ### `to_k8s_job_name` (k8s.py lines 36–48)

The Python function uses `re.sub` twice, `str.strip('-')`, an `isalnum`
guard, a uuid fallback for empty results, truncation with `rstrip('-')`
and a lower-cased `hypha-job-` prefix.  The uuid drawn on the empty
branch is passed in as the explicit argument `uuidHex`. -/

/-- `re.sub(r'[^a-zA-Z0-9-]', '-', ·)` on a single character. -/
def keepChar (c : Char) : Char :=
  if c.isAlphanum || c = '-' then c else '-'

/-- `re.sub(r'-+', '-', ·)`: collapse each run of hyphens to one. -/
def collapseDashes : List Char → List Char
  | [] => []
  | [c] => [c]
  | c :: d :: t =>
    if c = '-' && d = '-' then collapseDashes (d :: t)
    else c :: collapseDashes (d :: t)

/-- `str.strip('-')`. -/
def stripDashes (l : List Char) : List Char :=
  ((l.dropWhile (fun c => c = '-')).reverse.dropWhile (fun c => c = '-')).reverse

/-- `str.rstrip('-')`. -/
def rstripDashes (l : List Char) : List Char :=
  (l.reverse.dropWhile (fun c => c = '-')).reverse

/-- `if sanitized_id and not sanitized_id[0].isalnum(): sanitized_id = f"s{sanitized_id}"`. -/
def guardLeading : List Char → List Char
  | [] => []
  | c :: t => if ¬ c.isAlphanum then 's' :: c :: t else c :: t

/-- The sanitised identifier before the uuid fallback: the first four
statements of `to_k8s_job_name`. -/
def sanitizedId (session_id : String) : List Char :=
  guardLeading (stripDashes (collapseDashes (session_id.data.map keepChar)))

/-- `if not sanitized_id: sanitized_id = str(uuid.uuid4().hex[:8])`:
fall back to the uuid when the sanitised id is empty. -/
def baseName (session_id uuidHex : String) : List Char :=
  if (sanitizedId session_id).isEmpty then uuidHex.data else sanitizedId session_id

/-- `if len(sanitized_id) > 50: sanitized_id = sanitized_id[:50].rstrip('-')`. -/
def truncate50 (l : List Char) : List Char :=
  if l.length > 50 then rstripDashes (l.take 50) else l

/-- `to_k8s_job_name(session_id)`.  `uuidHex` stands for the
`uuid.uuid4().hex[:8]` value drawn when the sanitised id is empty. -/
def to_k8s_job_name (session_id : String) (uuidHex : String) : String :=
  String.mk ((("hypha-job-".data) ++ truncate50 (baseName session_id uuidHex)).map
    Char.toLower)

/-- The character set `[a-z0-9-]` demanded of cluster names. -/
def goodChar (c : Char) : Bool :=
  c.isDigit || ('a' ≤ c && c ≤ 'z') || c = '-'

/-- The characters `re.sub(r'[^a-zA-Z0-9-]', '-', ·)` keeps. -/
def validChar (c : Char) : Bool := c.isAlphanum || c = '-'

/-- Lower-case hex characters, as produced by `uuid.uuid4().hex`. -/
def hexLowerChar (c : Char) : Bool := c.isDigit || ('a' ≤ c && c ≤ 'f')

/-! ### Manifests and `KubernetesWorker.compile` (k8s.py lines 121–166) -/

/-- A Python value stored in a manifest dict, covering the shapes the
worker inspects (`isinstance(env, dict)`, `isinstance(command, list)`,
string fields, numeric timeout, booleans). -/
inductive MValue : Type
  | str : String → MValue
  | nat : Nat → MValue
  | listv : List String → MValue
  | dictv : List (String × String) → MValue
  | boolv : Bool → MValue
deriving DecidableEq, Repr

/-- Python truthiness of a manifest value. -/
def MValue.truthy : MValue → Bool
  | .str s => s ≠ ""
  | .nat n => n ≠ 0
  | .listv l => l ≠ []
  | .dictv d => d ≠ []
  | .boolv b => b

def MValue.isListShape : MValue → Bool
  | .listv _ => true
  | _ => false

def MValue.isDictShape : MValue → Bool
  | .dictv _ => true
  | _ => false

/-- An application manifest: a Python dict (insertion-ordered). -/
abbrev Manifest : Type := List (String × MValue)

/-- `":" in image` for the image-format check. -/
def hasColon (s : String) : Bool := s.data.contains ':'

/-- The three `setdefault` writes of the generic-job branch of
`compile` (lines 146–148). -/
def k8sDefaults (imagePullPolicy : String) (defaultTimeout : Nat) (m : Manifest) :
    Manifest :=
  msetdefault (msetdefault (msetdefault m "image_pull_policy" (.str imagePullPolicy))
    "restart_policy" (.str "Never")) "timeout" (.nat defaultTimeout)

/-- `KubernetesWorker.compile`: returns the raised-error-or-result
together with the final contents of the caller's manifest dict (the
Python code mutates the manifest in place via `setdefault`, so side
effects survive a raised exception). -/
def compileFn (imagePullPolicy : String) (defaultTimeout : Nat) (m : Manifest) :
    Except String Manifest × Manifest :=
  if mlookup m "type" = some (.str "claude-agent") then
    let m1 := msetdefault m "timeout" (.nat defaultTimeout)
    (.ok m1, m1)
  else
    if (mlookup m "image").isNone then
      (.error "Required field image missing from manifest", m)
    else
      let m3 := k8sDefaults imagePullPolicy defaultTimeout m
      match mlookup m3 "image" with
      | some (.str img) =>
        if img = "" || !hasColon img then
          (.error ("Invalid image format: " ++ img), m3)
        else
          match (mlookup m3 "env").getD (.dictv []) with
          | .dictv _ =>
            let command := (mlookup m3 "command").getD (.listv [])
            if command.truthy && !command.isListShape then
              (.error "Command must be a list", m3)
            else
              (.ok m3, m3)
          | _ => (.error "Environment variables must be a dictionary", m3)
      | some _ =>
        -- `":" in image` on a non-string raises TypeError in Python
        (.error "Invalid image format", m3)
      | none =>
        -- unreachable: `image` was present and `setdefault` never removes keys
        (.error "Required field image missing from manifest", m3)

/-! ### Container environment construction
(`_create_claude_agent_job_spec`, k8s.py lines 378–441, and
`_create_conda_worker_job_spec`, lines 650–682) -/

/-- A `V1EnvVar`: either an inline value or a `secret_key_ref`. -/
inductive EnvVal : Type
  | plain : String → EnvVal
  | secretRef : String → String → EnvVal
deriving DecidableEq, Repr

/-- Python dict merge `{**a, **b}`: `a`'s keys in order with `b`'s values
where present, then `b`'s remaining keys in order. -/
def pyMerge (a b : List (String × String)) : List (String × String) :=
  a.map (fun p => (p.1, ((mlookup b p.1).getD p.2))) ++
    b.filter (fun p => (mlookup a p.1).isNone)

/-- Relevant fields of `start`'s `WorkerConfig` plus the worker's own
ambient configuration. -/
structure AgentCfg : Type where
  workspace : String
  clientId : String
  /-- `self.server_url` of the worker. -/
  workerServerUrl : String
  /-- `config.server_url` carried by the start request (conda variant). -/
  configServerUrl : String
deriving DecidableEq, Repr

/-- Manifest fields read by `_create_claude_agent_job_spec`. -/
structure AgentManifest : Type where
  env : List (String × String) := []
  serverUrl : Option String := none
  secretName : Option String := none
deriving DecidableEq, Repr

/-- Manifest fields of a conda-worker manifest.  `env` is carried by the
manifest but — as proved below — never read by the spec builder. -/
structure CondaManifest : Type where
  env : List (String × String) := []
  workspace : Option String := none
  visibility : Option String := none
  tokenSecret : Option String := none
  tokenKey : Option String := none
deriving DecidableEq, Repr

def strContains (s pat : String) : Bool :=
  s.data.tails.any (fun t => pat.data.isPrefixOf t)

/-- Server-URL resolution in `_create_claude_agent_job_spec` (lines
391–398); `manifest.get("server_url")` is falsy when absent or empty. -/
def resolveServerUrl (mUrl : Option String) (workerUrl : String) : String :=
  let given := (mUrl.getD "")
  if given ≠ "" then given
  else if strContains workerUrl "hypha-server.hypha.svc.cluster.local" then workerUrl
  else "http://hypha-server.hypha.svc.cluster.local:9520"

/-- The worker-injected default environment of the Claude agent job. -/
def claudeHyphaEnv (cfg : AgentCfg) (serviceId : String) (mf : AgentManifest) :
    List (String × String) :=
  [("HYPHA_SERVER_URL", resolveServerUrl mf.serverUrl cfg.workerServerUrl),
   ("HYPHA_WORKSPACE", cfg.workspace),
   ("HYPHA_CLIENT_ID", cfg.clientId),
   ("AGENT_BASE_DIRECTORY", "/app/agent-workspaces"),
   ("AGENT_MAX_COUNT", "10"),
   ("SERVICE_ID", serviceId),
   ("SERVICE_VISIBILITY", "public")]

/-- The env list of the Claude agent container: merged plain variables
(user values win over injected defaults) followed by the two secret
references. -/
def claudeAgentEnv (cfg : AgentCfg) (serviceId : String) (mf : AgentManifest) :
    List (String × EnvVal) :=
  let merged := pyMerge (claudeHyphaEnv cfg serviceId mf) mf.env
  let secretName := mf.secretName.getD "deno-claude-code-config"
  merged.map (fun p => (p.1, EnvVal.plain p.2)) ++
    [("ANTHROPIC_API_KEY", .secretRef secretName "ANTHROPIC_API_KEY"),
     ("HYPHA_TOKEN", .secretRef "claude-agent-workspace-token" "HYPHA_WORKSPACE_TOKEN")]

/-- The env list of the conda-worker container (`_create_conda_worker_job_spec`,
lines 661–682): a fixed injected set; the manifest's `env` never appears. -/
def condaWorkerEnv (cfg : AgentCfg) (serviceId : String) (mf : CondaManifest) :
    List (String × EnvVal) :=
  let workspace := mf.workspace.getD cfg.workspace
  let visibility := mf.visibility.getD "protected"
  let tokenSecret := mf.tokenSecret.getD "hypha-secrets"
  let tokenKey := mf.tokenKey.getD "HYPHA_AGENTS_TOKEN"
  [("HYPHA_SERVER_URL", .plain cfg.configServerUrl),
   ("HYPHA_WORKSPACE", .plain workspace),
   ("HYPHA_SERVICE_ID", .plain serviceId),
   ("HYPHA_VISIBILITY", .plain visibility),
   ("HYPHA_TOKEN", .secretRef tokenSecret tokenKey)]

/-! ### Pod readiness polling loop
(k8s.py lines 301–346 `_start_claude_agent`, 585–622 `_start_conda_worker`,
933–978 `_start_k8s_job`)

Each iteration lists the pods labelled with the job name and inspects
the first pod's phase; the loop condition is `elapsed < 300` with a
2-second sleep per iteration, so iteration `i` runs while `2*i < 300`.
`succOk` distinguishes the agent/generic variants (which break
successfully on phase `"Succeeded"`) from the conda variant (whose loop
body has no `"Succeeded"` branch). -/

/-- One poll observation: what `list_namespaced_pod` yields. -/
inductive PodObs : Type
  | noPods
  | pod : String → String → PodObs
  | notFound
  | apiErr : String → PodObs
deriving DecidableEq, Repr

inductive LoopErr : Type
  | podFailed : String → LoopErr
  | timedOut
  | api : String → LoopErr
deriving DecidableEq, Repr

/-- The polling loop body at iteration `i` with `fuel` iterations left.
The Python loop runs `while time.time() - start_time < max_wait_time`
with a 2-second sleep per iteration and `max_wait_time = 300`, so
iteration `i` runs exactly while `2*i < 300`: `fuel = 150 - i`
iterations remain, and exhausted fuel is the timeout error. -/
def podLoopGo (succOk : Bool) (trace : Nat → PodObs) :
    Nat → Nat → Except LoopErr String
  | _, 0 => .error .timedOut
  | i, fuel + 1 =>
    match trace i with
    | .pod n phase =>
      if phase = "Running" then .ok n
      else if phase = "Failed" then .error (.podFailed n)
      else if phase = "Succeeded" && succOk then .ok n
      else podLoopGo succOk trace (i + 1) fuel
    | .noPods => podLoopGo succOk trace (i + 1) fuel
    | .notFound => podLoopGo succOk trace (i + 1) fuel
    | .apiErr m => .error (.api m)

/-- The full poll loop as the code runs it: from iteration 0 with the
150 iterations the 5-minute ceiling admits at one poll per 2 seconds. -/
def podLoop (succOk : Bool) (trace : Nat → PodObs) : Except LoopErr String :=
  podLoopGo succOk trace 0 150

/-- An observation on which the loop terminates (given the variant). -/
def decisiveObs (succOk : Bool) : PodObs → Bool
  | .pod _ phase => phase = "Running" || phase = "Failed" ||
      (phase = "Succeeded" && succOk)
  | .apiErr _ => true
  | .noPods => false
  | .notFound => false

/-! ### Session registry and lifecycle (`start` lines 168–246,
`stop` lines 999–1043) -/

inductive SessionStatus : Type
  | starting | running | stopping | stopped | failed
deriving DecidableEq, Repr

/-- The mutable fields of `SessionInfo` the lifecycle touches. -/
structure SessionInfoM : Type where
  status : SessionStatus
  error : Option String := none
deriving DecidableEq, Repr

/-- The five structured log buffers created by every `_start_*` routine. -/
structure LogsBuf : Type where
  stdout : List String := []
  stderr : List String := []
  info : List String := []
  error : List String := []
  progress : List String := []
deriving DecidableEq, Repr

/-- A workload-data record (`self._session_data[session_id]`). -/
structure SessionDataM : Type where
  jobName : String
  podName : Option String := none
  logs : LogsBuf := {}
deriving DecidableEq, Repr

/-- The worker's two session maps. -/
structure WorkerState : Type where
  sessions : List (String × SessionInfoM) := []
  sessionData : List (String × SessionDataM) := []
deriving DecidableEq, Repr

/-- Outcome of the variant-specific startup routine inside `start`'s `try`. -/
inductive StartOutcome : Type
  | ok : SessionDataM → StartOutcome
  | fail : String → StartOutcome
deriving DecidableEq, Repr

structure StartResult : Type where
  res : Except String String
  state : WorkerState
  /-- the `(type, message)` progress events emitted, in order -/
  events : List (String × String)
  /-- the state of the in-memory `session_info` object after the call -/
  finalInfo : Option SessionInfoM
deriving Repr

/-- `KubernetesWorker.start` as one atomic operation, parameterised by
the outcome of the variant-specific startup routine. -/
def startOp (s : WorkerState) (sid jobType : String) (outcome : StartOutcome) :
    StartResult :=
  if (mlookup s.sessions sid).isSome then
    { res := .error ("Session " ++ sid ++ " already exists"), state := s,
      events := [], finalInfo := mlookup s.sessions sid }
  else
    let infoStarting : SessionInfoM := { status := .starting }
    let s1 : WorkerState := { s with sessions := mset s.sessions sid infoStarting }
    let startEvt := ("info", "Starting Kubernetes " ++ jobType ++ " session " ++ sid)
    match outcome with
    | .ok d =>
      let s2 : WorkerState := { s1 with sessionData := mset s1.sessionData sid d }
      let infoRunning : SessionInfoM := { infoStarting with status := .running }
      let s3 : WorkerState := { s2 with sessions := mset s2.sessions sid infoRunning }
      { res := .ok sid, state := s3,
        events := [startEvt,
          ("success", "Kubernetes " ++ jobType ++ " session " ++ sid ++
            " started successfully")],
        finalInfo := some infoRunning }
    | .fail e =>
      let infoFailed : SessionInfoM := { status := .failed, error := some e }
      let s2 : WorkerState := { s1 with sessions := mset s1.sessions sid infoFailed }
      let s3 : WorkerState := { s2 with sessions := mpop s2.sessions sid }
      { res := .error e, state := s3,
        events := [startEvt, ("error", "Failed to start Kubernetes session: " ++ e)],
        finalInfo := some infoFailed }

/-- Outcome of `delete_namespaced_job` inside `stop`. -/
inductive DeleteOutcome : Type
  | ok
  | notFound
  | err : String → DeleteOutcome
deriving DecidableEq, Repr

structure StopResult : Type where
  res : Except String Unit
  state : WorkerState
  finalInfo : Option SessionInfoM
deriving Repr

/-- The `WorkerError` message raised when job deletion fails. -/
def deleteErrMsg (jobName m : String) : String :=
  "Failed to delete job " ++ jobName ++ ": " ++ m

/-- `KubernetesWorker.stop` as one atomic operation.  The `finally`
block pops both maps on every path. -/
def stopOp (s : WorkerState) (sid : String) (d : DeleteOutcome) : StopResult :=
  match mlookup s.sessions sid with
  | none => { res := .ok (), state := s, finalInfo := none }
  | some info =>
    let infoStopping : SessionInfoM := { info with status := .stopping }
    let deleteRes : Except String Unit :=
      match mlookup s.sessionData sid with
      | none => .ok ()
      | some dta =>
        match d with
        | .ok => .ok ()
        | .notFound => .ok ()
        | .err m => .error (deleteErrMsg dta.jobName m)
    let fin : Except String Unit × SessionInfoM :=
      match deleteRes with
      | .ok _ => (.ok (), { infoStopping with status := .stopped })
      | .error m => (.error m, { infoStopping with status := .failed, error := some m })
    { res := fin.1,
      state := { sessions := mpop s.sessions sid,
                 sessionData := mpop s.sessionData sid },
      finalInfo := some fin.2 }

/-- Log-buffer mutation of an existing workload-data record, as done by
`execute` and `get_logs` (keys and session statuses untouched). -/
def updateData (s : WorkerState) (sid : String) (f : SessionDataM → SessionDataM) :
    WorkerState :=
  match mlookup s.sessionData sid with
  | none => s
  | some d => { s with sessionData := mset s.sessionData sid (f d) }

/-- States the worker can reach from its empty initial state through the
map-mutating operations. -/
inductive Reachable : WorkerState → Prop
  | init : Reachable {}
  | start (s : WorkerState) (sid jobType : String) (outcome : StartOutcome) :
      Reachable s → Reachable (startOp s sid jobType outcome).state
  | stop (s : WorkerState) (sid : String) (d : DeleteOutcome) :
      Reachable s → Reachable (stopOp s sid d).state
  | dataUpdate (s : WorkerState) (sid : String) (f : SessionDataM → SessionDataM) :
      Reachable s → Reachable (updateData s sid f)

/-! ### `execute` (k8s.py lines 1124–1260) -/

/-- Outcome of the exec-channel pump inside `execute`'s `try`. -/
inductive ExecOutcome : Type
  | completed : Option Int → String → String → ExecOutcome
  | timedOut : Nat → ExecOutcome
  | apiErr : String → ExecOutcome
  | otherExc : String → String → ExecOutcome
deriving DecidableEq, Repr

structure ExecErrInfo : Type where
  ename : String
  evalue : String
  traceback : List String
deriving DecidableEq, Repr

structure StreamOut : Type where
  name : String
  text : String
deriving DecidableEq, Repr

structure ExecResult : Type where
  status : String
  outputs : List StreamOut
  error : Option ExecErrInfo := none
deriving DecidableEq, Repr

def timeoutMsg (t : Nat) : String :=
  "Command execution timed out after " ++ toString t ++ " seconds"

/-- `KubernetesWorker.execute`, parameterised by the outcome of the exec
channel; the three lookup failures raise, everything after returns a
structured result. -/
def executeFn (s : WorkerState) (sid : String) (outcome : ExecOutcome) :
    Except String ExecResult :=
  if (mlookup s.sessions sid).isNone then
    .error ("Kubernetes job session " ++ sid ++ " not found")
  else
    match mlookup s.sessionData sid with
    | none => .error ("No pod data available for session " ++ sid)
    | some d =>
      match d.podName with
      | none => .error ("No pod name found for session " ++ sid)
      | some _pod =>
        match outcome with
        | .completed rc out err =>
          let outputs :=
            (if out ≠ "" then [StreamOut.mk "stdout" out] else []) ++
            (if err ≠ "" then [StreamOut.mk "stderr" err] else [])
          match rc with
          | none => .ok { status := "ok", outputs }
          | some c =>
            if c = 0 then .ok { status := "ok", outputs }
            else
              .ok { status := "error", outputs,
                    error := some ⟨"CommandError",
                      "Command failed with return code " ++ toString c,
                      if err ≠ "" then [err]
                      else ["Command failed with return code " ++ toString c]⟩ }
        | .timedOut t =>
          .ok { status := "error", outputs := [],
                error := some ⟨"TimeoutError", timeoutMsg t, [timeoutMsg t]⟩ }
        | .apiErr m =>
          .ok { status := "error", outputs := [],
                error := some ⟨"KubernetesApiError", m,
                  ["Kubernetes API error during command execution: " ++ m]⟩ }
        | .otherExc n m =>
          .ok { status := "error", outputs := [],
                error := some ⟨n, m, ["Failed to execute command: " ++ m]⟩ }

/-! ### `get_logs` (k8s.py lines 1063–1122) -/

structure LogItem : Type where
  type : String
  content : String
deriving DecidableEq, Repr

structure LogsPage : Type where
  items : List LogItem
  total : Nat
  offset : Nat
  limit : Option Nat
deriving DecidableEq, Repr

/-- Flatten the log buffers in dict insertion order
(stdout, stderr, info, error, progress). -/
def flattenLogs (l : LogsBuf) : List LogItem :=
  l.stdout.map (fun c => LogItem.mk "stdout" c) ++
  l.stderr.map (fun c => LogItem.mk "stderr" c) ++
  l.info.map (fun c => LogItem.mk "info" c) ++
  l.error.map (fun c => LogItem.mk "error" c) ++
  l.progress.map (fun c => LogItem.mk "progress" c)

/-- The log buffers after the best-effort live fetch: when a pod name is
known and `read_namespaced_pod_log` returned non-empty text `k`, that
text is appended to the `stdout` buffer. -/
def effectiveLogs (d : SessionDataM) (fetched : Option String) : LogsBuf :=
  if d.podName.isSome then
    match fetched with
    | some k =>
      if k ≠ "" then { d.logs with stdout := d.logs.stdout ++ [k] } else d.logs
    | none => d.logs
  else d.logs

/-- The `if type:` filter of `get_logs` (an empty string is falsy). -/
def filterItems (typ : Option String) (items : List LogItem) : List LogItem :=
  match typ with
  | some t => if t ≠ "" then items.filter (fun it => it.type = t) else items
  | none => items

/-- `KubernetesWorker.get_logs`.  `fetched` is the text returned by the
best-effort `read_namespaced_pod_log` call (`none` when it raised). -/
def getLogsFn (s : WorkerState) (sid : String) (typ : Option String)
    (offset : Nat) (limit : Option Nat) (fetched : Option String) :
    Except String LogsPage :=
  if (mlookup s.sessions sid).isNone then
    .error ("Kubernetes job session " ++ sid ++ " not found")
  else
    match mlookup s.sessionData sid with
    | none => .ok { items := [], total := 0, offset, limit }
    | some d =>
      let filtered := filterItems typ (flattenLogs (effectiveLogs d fetched))
      let paginated :=
        match limit with
        | none => filtered.drop offset
        | some l => (filtered.drop offset).take l
      .ok { items := paginated, total := filtered.length, offset, limit }

/-- The session-map half of the start/stop invariant: what it means for
a session identifier to denote a session whose startup succeeded. -/
def SessionRunning (s : WorkerState) (sid : String) : Prop :=
  ∃ info, mlookup s.sessions sid = some info ∧ info.status = SessionStatus.running

/-! ### Theorems -/

theorem mlookup_filter_ne {α : Type} (m : List (String × α)) (k k' : String)
    (h : k' ≠ k) : mlookup (m.filter (fun p => p.1 ≠ k)) k' = mlookup m k' := by
  induction m with
  | nil => rfl
  | cons p t ih =>
    simp only [ne_eq, decide_not] at ih
    by_cases hpk : p.1 = k
    · have hkk' : ¬ (k = k') := fun hh => h hh.symm
      simp [List.filter_cons, hpk, mlookup, hkk', ih]
    · by_cases hpk' : p.1 = k'
      · simp [List.filter_cons, hpk, mlookup, hpk', h, ih]
      · simp [List.filter_cons, hpk, mlookup, hpk', ih]

theorem mlookup_mset_self {α : Type} (m : List (String × α)) (k : String) (v : α) :
    mlookup (mset m k v) k = some v := by
  simp [mset, mlookup]

theorem mlookup_mset_ne {α : Type} (m : List (String × α)) (k k' : String) (v : α)
    (h : k' ≠ k) : mlookup (mset m k v) k' = mlookup m k' := by
  simp only [mset, mlookup]
  rw [if_neg (fun hk => h hk.symm)]
  exact mlookup_filter_ne m k k' h

theorem mlookup_mpop_self {α : Type} (m : List (String × α)) (k : String) :
    mlookup (mpop m k) k = none := by
  induction m with
  | nil => rfl
  | cons p t ih =>
    by_cases hp : p.1 = k
    · simpa [mpop, List.filter, hp] using ih
    · simpa [mpop, List.filter, hp, mlookup] using ih

theorem mlookup_mpop_ne {α : Type} (m : List (String × α)) (k k' : String)
    (h : k' ≠ k) : mlookup (mpop m k) k' = mlookup m k' :=
  mlookup_filter_ne m k k' h

theorem mlookup_append_left {α : Type} {m₁ : List (String × α)} {k : String}
    {v : α} (m₂ : List (String × α)) (h : mlookup m₁ k = some v) :
    mlookup (m₁ ++ m₂) k = some v := by
  induction m₁ with
  | nil => simp [mlookup] at h
  | cons p t ih =>
    by_cases hp : p.1 = k
    · simp_all [mlookup]
    · simp only [mlookup, hp, if_false] at h
      simpa [mlookup, hp] using ih h

theorem mlookup_append_right {α : Type} {m₁ : List (String × α)} {k : String}
    (m₂ : List (String × α)) (h : mlookup m₁ k = none) :
    mlookup (m₁ ++ m₂) k = mlookup m₂ k := by
  induction m₁ with
  | nil => rfl
  | cons p t ih =>
    by_cases hp : p.1 = k
    · simp [mlookup, hp] at h
    · simp only [mlookup, hp, if_false] at h
      simpa [mlookup, hp] using ih h

theorem mlookup_msetdefault_ne {α : Type} (m : List (String × α)) (k k' : String)
    (v : α) (h : k' ≠ k) : mlookup (msetdefault m k v) k' = mlookup m k' := by
  unfold msetdefault
  by_cases hs : (mlookup m k).isSome
  · simp [hs]
  · rw [if_neg hs]
    cases hm : mlookup m k' with
    | none =>
      rw [mlookup_append_right _ hm]
      have hkk' : ¬ (k = k') := fun hh => h hh.symm
      simp [mlookup, hkk']
    | some v' => exact mlookup_append_left _ hm

theorem uint32_le_iff_toNat (a b : UInt32) : a ≤ b ↔ a.toNat ≤ b.toNat := Iff.rfl

theorem char_eq_iff_toNat (c d : Char) : c = d ↔ c.toNat = d.toNat :=
  ⟨fun h => h ▸ rfl, fun h => Char.eq_of_val_eq (UInt32.toNat.inj h)⟩

theorem isUpper_iff (c : Char) : c.isUpper = true ↔ 65 ≤ c.toNat ∧ c.toNat ≤ 90 := by
  simp only [Char.isUpper, Bool.and_eq_true, decide_eq_true_eq]
  exact and_congr (ge_iff_le.trans (uint32_le_iff_toNat _ _)) (uint32_le_iff_toNat _ _)

theorem isLower_iff (c : Char) : c.isLower = true ↔ 97 ≤ c.toNat ∧ c.toNat ≤ 122 := by
  simp only [Char.isLower, Bool.and_eq_true, decide_eq_true_eq]
  exact and_congr (ge_iff_le.trans (uint32_le_iff_toNat _ _)) (uint32_le_iff_toNat _ _)

theorem isDigit_iff (c : Char) : c.isDigit = true ↔ 48 ≤ c.toNat ∧ c.toNat ≤ 57 := by
  simp only [Char.isDigit, Bool.and_eq_true, decide_eq_true_eq]
  exact and_congr (ge_iff_le.trans (uint32_le_iff_toNat _ _)) (uint32_le_iff_toNat _ _)

theorem char_le_iff_toNat (a b : Char) : a ≤ b ↔ a.toNat ≤ b.toNat :=
  Char.le_def.trans (uint32_le_iff_toNat _ _)

theorem char_toNat_ofNat (n : Nat) (h : Nat.isValidChar n) :
    (Char.ofNat n).toNat = n := by
  unfold Char.ofNat
  rw [dif_pos h]
  rfl

theorem validChar_iff (c : Char) : validChar c = true ↔
    (48 ≤ c.toNat ∧ c.toNat ≤ 57) ∨ (65 ≤ c.toNat ∧ c.toNat ≤ 90) ∨
    (97 ≤ c.toNat ∧ c.toNat ≤ 122) ∨ c.toNat = 45 := by
  simp only [validChar, Char.isAlphanum, Char.isAlpha, Bool.or_eq_true,
    decide_eq_true_eq, isUpper_iff, isLower_iff, isDigit_iff,
    char_eq_iff_toNat]
  rw [show ('-').toNat = 45 from rfl]
  omega

theorem goodChar_iff (c : Char) : goodChar c = true ↔
    (48 ≤ c.toNat ∧ c.toNat ≤ 57) ∨ (97 ≤ c.toNat ∧ c.toNat ≤ 122) ∨
    c.toNat = 45 := by
  simp only [goodChar, Bool.or_eq_true, Bool.and_eq_true, decide_eq_true_eq,
    isDigit_iff, char_le_iff_toNat, char_eq_iff_toNat]
  rw [show ('a').toNat = 97 from rfl, show ('z').toNat = 122 from rfl,
    show ('-').toNat = 45 from rfl]
  omega

/-- Characters kept by the sanitiser come out of `str.lower()` inside
the cluster character set `[a-z0-9-]`. -/
theorem goodChar_toLower_of_valid (c : Char) (h : validChar c = true) :
    goodChar (Char.toLower c) = true := by
  rw [validChar_iff] at h
  rw [goodChar_iff]
  unfold Char.toLower
  rcases h with h | h | h | h
  · rw [if_neg (by omega)]
    exact Or.inl h
  · rw [if_pos (by omega)]
    rw [char_toNat_ofNat _ (Or.inl (by omega))]
    exact Or.inr (Or.inl (by omega))
  · rw [if_neg (by omega)]
    exact Or.inr (Or.inl h)
  · rw [if_neg (by omega)]
    exact Or.inr (Or.inr h)

theorem validChar_of_hexLower (c : Char) (h : hexLowerChar c = true) :
    validChar c = true := by
  rw [validChar_iff]
  simp only [hexLowerChar, Bool.or_eq_true, Bool.and_eq_true, decide_eq_true_eq,
    isDigit_iff, char_le_iff_toNat] at h
  rw [show ('a').toNat = 97 from rfl, show ('f').toNat = 102 from rfl] at h
  omega

theorem validChar_keepChar (a : Char) : validChar (keepChar a) = true := by
  unfold keepChar validChar
  by_cases h : (a.isAlphanum || a = '-') = true
  · rw [if_pos h]
    exact h
  · rw [if_neg h]
    decide

theorem collapseDashes_subset : ∀ l : List Char, collapseDashes l ⊆ l
  | [] => by simp [collapseDashes]
  | [c] => by simp [collapseDashes]
  | c :: d :: t => by
    unfold collapseDashes
    by_cases h : (c = '-' && d = '-') = true
    · rw [if_pos h]
      exact fun x hx => List.mem_cons_of_mem c (collapseDashes_subset (d :: t) hx)
    · rw [if_neg h]
      intro x hx
      rcases List.mem_cons.mp hx with rfl | hx2
      · exact List.mem_cons_self x (d :: t)
      · exact List.mem_cons_of_mem c (collapseDashes_subset (d :: t) hx2)

theorem stripDashes_subset (l : List Char) : stripDashes l ⊆ l := by
  intro x hx
  unfold stripDashes at hx
  rw [List.mem_reverse] at hx
  have hx2 := (List.dropWhile_sublist _).subset hx
  rw [List.mem_reverse] at hx2
  exact (List.dropWhile_sublist _).subset hx2

theorem rstripDashes_subset (l : List Char) : rstripDashes l ⊆ l := by
  intro x hx
  unfold rstripDashes at hx
  rw [List.mem_reverse] at hx
  have hx2 := (List.dropWhile_sublist _).subset hx
  rw [List.mem_reverse] at hx2
  exact hx2

theorem rstripDashes_length_le (l : List Char) :
    (rstripDashes l).length ≤ l.length := by
  unfold rstripDashes
  rw [List.length_reverse]
  calc (l.reverse.dropWhile (fun c => c = '-')).length
      ≤ l.reverse.length := (List.dropWhile_sublist _).length_le
    _ = l.length := List.length_reverse l

theorem guardLeading_subset (l : List Char) : guardLeading l ⊆ 's' :: l := by
  cases l with
  | nil => simp [guardLeading]
  | cons c t =>
    simp only [guardLeading]
    by_cases h : c.isAlphanum = true
    · rw [if_neg (by simp [h])]
      exact List.subset_cons_self _ _
    · rw [if_pos (by simp [h])]
      exact List.Subset.refl _

theorem sanitizedId_valid (s : String) : ∀ c ∈ sanitizedId s, validChar c = true := by
  intro c hc
  unfold sanitizedId at hc
  have hc2 := guardLeading_subset _ hc
  cases List.mem_cons.mp hc2 with
  | inl h =>
    subst h
    decide
  | inr h =>
    have h3 := stripDashes_subset _ h
    have h4 := collapseDashes_subset _ h3
    rw [List.mem_map] at h4
    obtain ⟨a, _, rfl⟩ := h4
    exact validChar_keepChar a

theorem baseName_valid (s u : String) (hu : u.data.all hexLowerChar = true) :
    ∀ c ∈ baseName s u, validChar c = true := by
  intro c hc
  unfold baseName at hc
  by_cases h : (sanitizedId s).isEmpty = true
  · rw [if_pos h] at hc
    refine validChar_of_hexLower c ?_
    rw [List.all_eq_true] at hu
    exact hu c hc
  · rw [if_neg h] at hc
    exact sanitizedId_valid s c hc

theorem truncate50_length (l : List Char) : (truncate50 l).length ≤ 50 := by
  unfold truncate50
  by_cases h : l.length > 50
  · rw [if_pos h]
    calc (rstripDashes (l.take 50)).length
        ≤ (l.take 50).length := rstripDashes_length_le _
      _ ≤ 50 := List.length_take_le _ _
  · rw [if_neg h]
    omega

theorem truncate50_subset (l : List Char) : truncate50 l ⊆ l := by
  unfold truncate50
  by_cases h : l.length > 50
  · rw [if_pos h]
    exact (rstripDashes_subset _).trans (List.take_subset _ _)
  · rw [if_neg h]
    exact fun x hx => hx

theorem to_k8s_job_name_length (s u : String) : (to_k8s_job_name s u).length ≤ 63 := by
  show (List.map Char.toLower
    ("hypha-job-".data ++ truncate50 (baseName s u))).length ≤ 63
  rw [List.length_map, List.length_append]
  have h50 := truncate50_length (baseName s u)
  have hpre : ("hypha-job-".data).length = 10 := rfl
  omega

theorem to_k8s_job_name_ne_empty (s u : String) : to_k8s_job_name s u ≠ "" := by
  intro h
  have hlen : (to_k8s_job_name s u).length = 0 := by
    rw [h]
    rfl
  have hlen2 : (to_k8s_job_name s u).length =
      10 + (truncate50 (baseName s u)).length := by
    show (List.map Char.toLower
      ("hypha-job-".data ++ truncate50 (baseName s u))).length = _
    rw [List.length_map, List.length_append]
    rfl
  omega

theorem to_k8s_job_name_head (s u : String) :
    (to_k8s_job_name s u).data.head? = some 'h' := rfl

theorem to_k8s_job_name_chars (s u : String) (hu : u.data.all hexLowerChar = true) :
    ∀ c ∈ (to_k8s_job_name s u).data, goodChar c = true := by
  intro c hc
  have hc2 : c ∈ List.map Char.toLower
      ("hypha-job-".data ++ truncate50 (baseName s u)) := hc
  rw [List.mem_map] at hc2
  obtain ⟨a, ha, rfl⟩ := hc2
  rw [List.mem_append] at ha
  rcases ha with ha | ha
  · have ha2 : a ∈ ['h', 'y', 'p', 'h', 'a', '-', 'j', 'o', 'b', '-'] := ha
    fin_cases ha2 <;> decide
  · exact goodChar_toLower_of_valid a
      (baseName_valid s u hu a (truncate50_subset _ ha))

theorem to_k8s_job_name_deterministic (s u1 u2 : String)
    (h : sanitizedId s ≠ []) : to_k8s_job_name s u1 = to_k8s_job_name s u2 := by
  unfold to_k8s_job_name baseName
  rw [if_neg (by simp [h]), if_neg (by simp [h])]

/-! ### Lifecycle lemmas -/

theorem startOp_state (s : WorkerState) (sid jobType : String)
    (outcome : StartOutcome) :
    (startOp s sid jobType outcome).state =
      if (mlookup s.sessions sid).isSome then s
      else
        match outcome with
        | .ok d =>
          { sessions := mset (mset s.sessions sid { status := .starting })
              sid { status := .running },
            sessionData := mset s.sessionData sid d }
        | .fail e =>
          { sessions := mpop (mset (mset s.sessions sid { status := .starting })
              sid { status := .failed, error := some e }) sid,
            sessionData := s.sessionData } := by
  unfold startOp
  by_cases hdup : (mlookup s.sessions sid).isSome
  · simp [hdup]
  · cases outcome <;> simp [hdup]

theorem stopOp_state (s : WorkerState) (sid : String) (d : DeleteOutcome) :
    (stopOp s sid d).state =
      match mlookup s.sessions sid with
      | none => s
      | some _ =>
        { sessions := mpop s.sessions sid, sessionData := mpop s.sessionData sid } := by
  unfold stopOp
  cases hm : mlookup s.sessions sid <;> simp

theorem updateData_sessions (s : WorkerState) (sid : String)
    (f : SessionDataM → SessionDataM) :
    (updateData s sid f).sessions = s.sessions := by
  unfold updateData
  cases hm : mlookup s.sessionData sid <;> simp

theorem updateData_lookup_isSome (s : WorkerState) (sid k : String)
    (f : SessionDataM → SessionDataM) :
    (mlookup (updateData s sid f).sessionData k).isSome =
      (mlookup s.sessionData k).isSome := by
  unfold updateData
  cases hm : mlookup s.sessionData sid with
  | none => simp
  | some dta =>
    by_cases hk : k = sid
    · subst hk; simp [mlookup_mset_self, hm]
    · simp [mlookup_mset_ne _ _ _ _ hk]

/-- **C1**: in every reachable worker state, a session identifier is a
key of the workload-data map if and only if it is a key of the session
map and its startup succeeded (its session is in status RUNNING): start
inserts workload data only after the session entry exists and only on
the success path, failed start removes the session entry, and stop
removes both entries together. -/
theorem c1_workload_data_iff_session_running (s : WorkerState)
    (h : Reachable s) (sid : String) :
    (mlookup s.sessionData sid).isSome = true ↔ SessionRunning s sid := by
  induction h with
  | init => simp [SessionRunning, mlookup]
  | start s' sid' jobType outcome hr ih =>
    simp only [SessionRunning] at ih ⊢
    rw [startOp_state]
    by_cases hdup : (mlookup s'.sessions sid').isSome
    · simpa [hdup] using ih
    · cases outcome with
      | ok d =>
        rw [if_neg hdup]
        by_cases hsid : sid = sid'
        · subst hsid
          simp [mlookup_mset_self]
        · have hdata_eq : mlookup (mset s'.sessionData sid' d) sid =
              mlookup s'.sessionData sid := mlookup_mset_ne _ _ _ _ hsid
          have hsess_eq :
              mlookup (mset (mset s'.sessions sid'
                  { status := SessionStatus.starting }) sid'
                { status := SessionStatus.running }) sid =
              mlookup s'.sessions sid := by
            rw [mlookup_mset_ne _ _ _ _ hsid, mlookup_mset_ne _ _ _ _ hsid]
          simp only [hdata_eq, hsess_eq]
          exact ih
      | fail e =>
        rw [if_neg hdup]
        have hs' : mlookup s'.sessions sid' = none :=
          Option.not_isSome_iff_eq_none.mp hdup
        by_cases hsid : sid = sid'
        · subst hsid
          have hdata : mlookup s'.sessionData sid = none := by
            cases hx : mlookup s'.sessionData sid with
            | none => rfl
            | some v =>
              have := ih.mp (by simp [hx])
              rcases this with ⟨info, hinfo, _⟩
              rw [hs'] at hinfo
              exact absurd hinfo (by simp)
          simp [mlookup_mpop_self, hdata]
        · have hdata_eq := mlookup_mpop_ne
            (mset (mset s'.sessions sid' { status := SessionStatus.starting }) sid'
              { status := SessionStatus.failed, error := some e }) sid' sid hsid
          have hsess_eq :
              mlookup (mset (mset s'.sessions sid'
                  { status := SessionStatus.starting }) sid'
                { status := SessionStatus.failed, error := some e }) sid =
              mlookup s'.sessions sid := by
            rw [mlookup_mset_ne _ _ _ _ hsid, mlookup_mset_ne _ _ _ _ hsid]
          simp only [hdata_eq, hsess_eq]
          exact ih
  | stop s' sid' d hr ih =>
    simp only [SessionRunning] at ih ⊢
    rw [stopOp_state]
    cases hm : mlookup s'.sessions sid' with
    | none => simpa using ih
    | some info =>
      by_cases hsid : sid = sid'
      · subst hsid
        simp [mlookup_mpop_self]
      · simp only [mlookup_mpop_ne _ _ _ hsid]
        exact ih
  | dataUpdate s' sid' f hr ih =>
    simp only [SessionRunning] at ih ⊢
    rw [updateData_lookup_isSome, updateData_sessions]
    exact ih

/-- Witness for C1 at the state reached by one successful start. -/
theorem c1_workload_data_iff_session_running_witness :
    (mlookup (startOp {} "sess-1" "k8s-job"
        (.ok { jobName := "hypha-job-sess-1" })).state.sessionData "sess-1").isSome
      = true ↔
    SessionRunning (startOp {} "sess-1" "k8s-job"
        (.ok { jobName := "hypha-job-sess-1" })).state "sess-1" :=
  c1_workload_data_iff_session_running _
    (Reachable.start {} "sess-1" "k8s-job" _ Reachable.init) "sess-1"

/-- **C2**: when the variant-specific startup routine fails, `start`
sets the session object's status to FAILED with the recorded error,
emits an `"error"` progress event, re-raises the exception, and leaves
the session identifier absent from both maps. -/
theorem c2_failed_start_cleanup (s : WorkerState) (sid jobType e : String)
    (hs : mlookup s.sessions sid = none)
    (hd : mlookup s.sessionData sid = none) :
    (startOp s sid jobType (.fail e)).res = .error e ∧
    (startOp s sid jobType (.fail e)).finalInfo =
      some { status := .failed, error := some e } ∧
    ("error", "Failed to start Kubernetes session: " ++ e) ∈
      (startOp s sid jobType (.fail e)).events ∧
    mlookup (startOp s sid jobType (.fail e)).state.sessions sid = none ∧
    mlookup (startOp s sid jobType (.fail e)).state.sessionData sid = none := by
  have hdup : ¬ ((mlookup s.sessions sid).isSome = true) := by simp [hs]
  refine ⟨?_, ?_, ?_, ?_, ?_⟩
  · simp [startOp, hdup]
  · simp [startOp, hdup]
  · simp [startOp, hdup]
  · rw [startOp_state]
    simp [hdup, mlookup_mpop_self]
  · rw [startOp_state]
    simpa [hdup] using hd

theorem c2_failed_start_cleanup_witness :
    (startOp {} "sess-2" "claude-agent" (.fail "boom")).res = .error "boom" ∧
    (startOp {} "sess-2" "claude-agent" (.fail "boom")).finalInfo =
      some { status := .failed, error := some "boom" } ∧
    ("error", "Failed to start Kubernetes session: " ++ "boom") ∈
      (startOp {} "sess-2" "claude-agent" (.fail "boom")).events ∧
    mlookup (startOp {} "sess-2" "claude-agent"
      (.fail "boom")).state.sessions "sess-2" = none ∧
    mlookup (startOp {} "sess-2" "claude-agent"
      (.fail "boom")).state.sessionData "sess-2" = none :=
  c2_failed_start_cleanup {} "sess-2" "claude-agent" "boom" rfl rfl

/-- **C3**: `stop` on an unknown session is a no-op returning without
error; on a known session it ends with status STOPPED on success paths,
treats an already-deleted (404) workload as success, propagates any
other deletion error, and in every outcome the identifier is absent
from both maps afterwards. -/
theorem c3_stop_spec (s : WorkerState) (sid : String) (d : DeleteOutcome) :
    (mlookup s.sessions sid = none →
      stopOp s sid d = { res := .ok (), state := s, finalInfo := none }) ∧
    (∀ info, mlookup s.sessions sid = some info →
      mlookup (stopOp s sid d).state.sessions sid = none ∧
      mlookup (stopOp s sid d).state.sessionData sid = none ∧
      (mlookup s.sessionData sid = none →
        (stopOp s sid d).res = .ok () ∧
        (stopOp s sid d).finalInfo = some { info with status := .stopped }) ∧
      (∀ dta, mlookup s.sessionData sid = some dta →
        ((d = .ok ∨ d = .notFound) →
          (stopOp s sid d).res = .ok () ∧
          (stopOp s sid d).finalInfo = some { info with status := .stopped }) ∧
        (∀ m, d = .err m →
          (stopOp s sid d).res = .error (deleteErrMsg dta.jobName m) ∧
          (stopOp s sid d).finalInfo =
            some { status := .failed, error := some (deleteErrMsg dta.jobName m) }))) := by
  constructor
  · intro hn
    simp [stopOp, hn]
  · intro info hi
    refine ⟨?_, ?_, ?_, ?_⟩
    · rw [stopOp_state]
      simp [hi, mlookup_mpop_self]
    · rw [stopOp_state]
      simp [hi, mlookup_mpop_self]
    · intro hdn
      constructor <;> simp [stopOp, hi, hdn]
    · intro dta hdta
      constructor
      · rintro (rfl | rfl) <;> constructor <;> simp [stopOp, hi, hdta]
      · rintro m rfl
        constructor <;> simp [stopOp, hi, hdta]

theorem c3_stop_spec_witness :
    mlookup (stopOp
      { sessions := [("sess-3", { status := .running })],
        sessionData := [("sess-3", { jobName := "hypha-job-sess-3" })] }
      "sess-3" .notFound).state.sessions "sess-3" = none ∧
    mlookup (stopOp
      { sessions := [("sess-3", { status := .running })],
        sessionData := [("sess-3", { jobName := "hypha-job-sess-3" })] }
      "sess-3" .notFound).state.sessionData "sess-3" = none :=
  ⟨((c3_stop_spec
      { sessions := [("sess-3", { status := .running })],
        sessionData := [("sess-3", { jobName := "hypha-job-sess-3" })] }
      "sess-3" .notFound).2 _ rfl).1,
   ((c3_stop_spec
      { sessions := [("sess-3", { status := .running })],
        sessionData := [("sess-3", { jobName := "hypha-job-sess-3" })] }
      "sess-3" .notFound).2 _ rfl).2.1⟩

/-- **C4** counterexample: the claim asserts `to_job_name` is idempotent,
but applying it to its own output prepends the `hypha-job-` prefix a
second time, so at the concrete input `"abc"` the claimed fixed-point
property is false. -/
theorem c4_job_name_counterexample :
    to_k8s_job_name (to_k8s_job_name "abc" "deadbeef") "deadbeef" ≠
      to_k8s_job_name "abc" "deadbeef" := by decide

/-- **C4 (amended)**: `to_k8s_job_name` is deterministic for every input
whose sanitised form is nonempty (only the empty-sanitisation branch
draws a uuid), never returns the empty string, and its output satisfies
the cluster constraints: length at most 63, leading character the
alphanumeric `h`, and every character a lower-case alphanumeric or
hyphen.  It is not idempotent. -/
theorem c4_job_name_amended (s u u1 u2 : String)
    (hu : u.data.all hexLowerChar = true) :
    (sanitizedId s ≠ [] → to_k8s_job_name s u1 = to_k8s_job_name s u2) ∧
    to_k8s_job_name s u ≠ "" ∧
    (to_k8s_job_name s u).length ≤ 63 ∧
    (to_k8s_job_name s u).data.head? = some 'h' ∧
    (∀ c ∈ (to_k8s_job_name s u).data, goodChar c = true) :=
  ⟨fun h => to_k8s_job_name_deterministic s u1 u2 h,
   to_k8s_job_name_ne_empty s u,
   to_k8s_job_name_length s u,
   to_k8s_job_name_head s u,
   to_k8s_job_name_chars s u hu⟩

/-- Witness for C4 (amended) at concrete inputs. -/
theorem c4_job_name_amended_witness :
    ("deadbeef".data.all hexLowerChar = true) ∧
    ((sanitizedId "My Session!" ≠ [] →
        to_k8s_job_name "My Session!" "aa" = to_k8s_job_name "My Session!" "bb") ∧
      to_k8s_job_name "My Session!" "deadbeef" ≠ "" ∧
      (to_k8s_job_name "My Session!" "deadbeef").length ≤ 63 ∧
      (to_k8s_job_name "My Session!" "deadbeef").data.head? = some 'h' ∧
      (∀ c ∈ (to_k8s_job_name "My Session!" "deadbeef").data, goodChar c = true)) :=
  ⟨by decide, c4_job_name_amended "My Session!" "deadbeef" "aa" "bb" (by decide)⟩

/-! ### Pod readiness loop lemmas and C8 -/

theorem podLoopGo_step (succOk : Bool) (trace : Nat → PodObs) (i fuel : Nat)
    (hnd : decisiveObs succOk (trace i) = false) :
    podLoopGo succOk trace i (fuel + 1) = podLoopGo succOk trace (i + 1) fuel := by
  conv_lhs => unfold podLoopGo
  cases htr : trace i with
  | noPods => rfl
  | notFound => rfl
  | apiErr m =>
    rw [htr] at hnd
    simp [decisiveObs] at hnd
  | pod n phase =>
    rw [htr] at hnd
    simp only [decisiveObs] at hnd
    have hR : ¬ (phase = "Running") := by
      intro hx
      rw [hx] at hnd
      simp at hnd
    have hF : ¬ (phase = "Failed") := by
      intro hx
      rw [hx] at hnd
      simp at hnd
    have hS : ¬ ((phase = "Succeeded" && succOk) = true) := by
      intro hx
      rw [Bool.and_eq_true, decide_eq_true_eq] at hx
      rw [hx.1, hx.2] at hnd
      simp at hnd
    dsimp only
    rw [if_neg hR, if_neg hF, if_neg hS]

theorem podLoopGo_skip (succOk : Bool) (trace : Nat → PodObs) :
    ∀ i : Nat, (∀ j, j < i → decisiveObs succOk (trace j) = false) →
      i ≤ 150 → podLoop succOk trace = podLoopGo succOk trace i (150 - i) := by
  intro i
  induction i with
  | zero => intro _ _; rfl
  | succ n ihn =>
    intro hnd hle
    rw [ihn (fun j hj => hnd j (Nat.lt_succ_of_lt hj)) (by omega)]
    rw [show 150 - n = (150 - (n + 1)) + 1 from by omega]
    exact podLoopGo_step succOk trace n _ (hnd n (Nat.lt_succ_self n))

set_option maxRecDepth 4000 in
/-- **C8** counterexample: the conda-worker readiness loop body has no
`"Succeeded"` branch, so a pod already in phase `"Succeeded"` at every
poll drives that variant's loop into the timeout error instead of
success; the agent/generic variants succeed on the same trace. -/
theorem c8_pod_loop_counterexample :
    podLoop false (fun _ => .pod "pod-1" "Succeeded") = .error .timedOut ∧
    podLoop true (fun _ => .pod "pod-1" "Succeeded") = .ok "pod-1" := by
  constructor
  · rfl
  · rfl

/-- **C8 (amended)**: all three variants poll every 2 time units with a
300-unit (5-minute) ceiling; at the first decisive observation the loop
returns success for `"Running"` (capturing the pod name), the fatal
pod-failure error for `"Failed"`, and propagates a cluster API error;
phase `"Succeeded"` is success for the agent-job and generic-job
variants only — the environment-worker (conda) loop does not treat it
as decisive, and a trace with no decisive observation within the
ceiling ends in the timeout error. -/
theorem c8_pod_loop_amended (succOk : Bool) (trace : Nat → PodObs) (i : Nat)
    (h2 : 2 * i < 300)
    (hfirst : ∀ j, j < i → decisiveObs succOk (trace j) = false) :
    (∀ n, trace i = .pod n "Running" → podLoop succOk trace = .ok n) ∧
    (∀ n, trace i = .pod n "Failed" →
      podLoop succOk trace = .error (.podFailed n)) ∧
    (∀ n, trace i = .pod n "Succeeded" → succOk = true →
      podLoop succOk trace = .ok n) ∧
    (∀ n, decisiveObs false (.pod n "Succeeded") = false) ∧
    (∀ m, trace i = .apiErr m → podLoop succOk trace = .error (.api m)) ∧
    ((∀ j, 2 * j < 300 → decisiveObs succOk (trace j) = false) →
      podLoop succOk trace = .error .timedOut) := by
  have hskip : podLoop succOk trace = podLoopGo succOk trace i (150 - i) :=
    podLoopGo_skip succOk trace i hfirst (by omega)
  have hfuel : 150 - i = (149 - i) + 1 := by omega
  refine ⟨?_, ?_, ?_, ?_, ?_, ?_⟩
  · intro n htr
    rw [hskip, hfuel]
    conv_lhs => unfold podLoopGo
    rw [htr]
    simp
  · intro n htr
    rw [hskip, hfuel]
    conv_lhs => unfold podLoopGo
    rw [htr]
    simp
  · intro n htr hok
    rw [hskip, hfuel]
    conv_lhs => unfold podLoopGo
    rw [htr, hok]
    simp
  · intro n
    rfl
  · intro m htr
    rw [hskip, hfuel]
    conv_lhs => unfold podLoopGo
    rw [htr]
  · intro hall
    rw [podLoopGo_skip succOk trace 150 (fun j hj => hall j (by omega)) (by omega)]
    rfl

/-- Witness for C8 (amended): a pod running at the very first poll. -/
theorem c8_pod_loop_amended_witness :
    podLoop true (fun _ => .pod "pod-w" "Running") = .ok "pod-w" :=
  (c8_pod_loop_amended true (fun _ => .pod "pod-w" "Running") 0 (by decide)
    (fun j hj => absurd hj (Nat.not_lt_zero j))).1 "pod-w" rfl

/-! ### `compile` claims C5 and C6 -/

/-- **C5** counterexample: the claim asserts a tag-separator-free image
fails with no side effects, but `compile` writes the three defaults
into the caller's manifest before raising the image-format error, so
the input manifest is changed. -/
theorem c5_compile_counterexample :
    (compileFn "IfNotPresent" 3600 [("image", .str "busybox")]).1 =
      .error "Invalid image format: busybox" ∧
    (compileFn "IfNotPresent" 3600 [("image", .str "busybox")]).2 ≠
      [("image", .str "busybox")] := by
  constructor
  · rfl
  · decide

/-- **C5 (amended)**: a generic-job manifest lacking `image` fails with
the validation error and the input manifest is left unchanged; a
manifest whose `image` string has no `":"` also fails with a validation
error, but only after the `image_pull_policy`, `restart_policy` and
`timeout` defaults have been written into the caller's manifest. -/
theorem c5_compile_amended (dp : String) (dt : Nat) (m : Manifest)
    (hty : ¬ mlookup m "type" = some (.str "claude-agent")) :
    (mlookup m "image" = none →
      compileFn dp dt m =
        (.error "Required field image missing from manifest", m)) ∧
    (∀ img, mlookup m "image" = some (.str img) → hasColon img = false →
      (compileFn dp dt m).1 = .error ("Invalid image format: " ++ img) ∧
      (compileFn dp dt m).2 = k8sDefaults dp dt m) := by
  constructor
  · intro him
    unfold compileFn
    rw [if_neg hty, if_pos (by simp [him])]
  · intro img him hcol
    have h3 : mlookup (k8sDefaults dp dt m) "image" = some (.str img) := by
      unfold k8sDefaults
      rw [mlookup_msetdefault_ne _ _ _ _ (by decide),
        mlookup_msetdefault_ne _ _ _ _ (by decide),
        mlookup_msetdefault_ne _ _ _ _ (by decide)]
      exact him
    have hno : ¬ ((mlookup m "image").isNone = true) := by simp [him]
    constructor
    · unfold compileFn
      rw [if_neg hty, if_neg hno]
      simp only [h3]
      rw [if_pos (by simp [hcol])]
    · unfold compileFn
      rw [if_neg hty, if_neg hno]
      simp only [h3]
      rw [if_pos (by simp [hcol])]

/-- Witness for C5 (amended) at a concrete manifest missing `image`. -/
theorem c5_compile_amended_witness :
    compileFn "IfNotPresent" 3600 [("type", .str "k8s-job")] =
      (.error "Required field image missing from manifest",
        [("type", .str "k8s-job")]) :=
  (c5_compile_amended "IfNotPresent" 3600 [("type", .str "k8s-job")]
    (by decide)).1 rfl

/-- **C6** counterexample: the claim asserts compile never fails for
environment-worker (conda-worker) manifests, but `compile` only special
cases `"claude-agent"`; a conda-worker manifest falls through to the
generic-job validation and fails when `image` is absent. -/
theorem c6_compile_counterexample :
    (compileFn "IfNotPresent" 3600 [("type", .str "conda-worker")]).1 =
      .error "Required field image missing from manifest" := rfl

/-- **C6 (amended)**: compile validation is permissive for agent-job
(claude-agent) manifests only — it applies the timeout default and
always succeeds; environment-worker (conda-worker) manifests take the
generic-job branch and are subject to its image validation. -/
theorem c6_compile_amended (dp : String) (dt : Nat) (m : Manifest)
    (hty : mlookup m "type" = some (.str "claude-agent")) :
    compileFn dp dt m =
      (.ok (msetdefault m "timeout" (.nat dt)), msetdefault m "timeout" (.nat dt)) := by
  unfold compileFn
  rw [if_pos hty]

/-- Witness for C6 (amended) at a concrete claude-agent manifest. -/
theorem c6_compile_amended_witness :
    compileFn "IfNotPresent" 3600 [("type", .str "claude-agent")] =
      (.ok [("type", .str "claude-agent"), ("timeout", .nat 3600)],
        [("type", .str "claude-agent"), ("timeout", .nat 3600)]) :=
  c6_compile_amended "IfNotPresent" 3600 [("type", .str "claude-agent")] rfl

/-! ### Environment merge lemmas and C7 -/

theorem mlookup_map_plain (l : List (String × String)) (k : String) :
    mlookup (l.map (fun p => (p.1, EnvVal.plain p.2))) k =
      (mlookup l k).map EnvVal.plain := by
  induction l with
  | nil => rfl
  | cons p t ih =>
    by_cases hp : p.1 = k <;> simp [mlookup, hp, ih]

theorem mlookup_filter_of_none (a b : List (String × String)) (k : String)
    (ha : mlookup a k = none) :
    mlookup (b.filter (fun p => (mlookup a p.1).isNone)) k = mlookup b k := by
  induction b with
  | nil => rfl
  | cons q t ih =>
    by_cases hq : q.1 = k
    · subst hq
      simp only [List.filter_cons, ha, Option.isNone_none]
      simp [mlookup, ih]
    · simp only [List.filter_cons]
      cases hkeep : (mlookup a q.1).isNone with
      | true => simpa [mlookup, hq] using ih
      | false => simpa [mlookup, hq] using ih

theorem mlookup_mapMerge_none (a b : List (String × String)) (k : String)
    (ha : mlookup a k = none) :
    mlookup (a.map (fun p => (p.1, (mlookup b p.1).getD p.2))) k = none := by
  induction a with
  | nil => rfl
  | cons p t ih =>
    by_cases hp : p.1 = k
    · simp [mlookup, hp] at ha
    · simp only [mlookup, hp, if_false] at ha
      simpa [mlookup, hp] using ih ha

theorem mlookup_mapMerge_some (a b : List (String × String)) (k w : String)
    (ha : mlookup a k = some w) :
    mlookup (a.map (fun p => (p.1, (mlookup b p.1).getD p.2))) k =
      some ((mlookup b k).getD w) := by
  induction a with
  | nil => simp [mlookup] at ha
  | cons p t ih =>
    by_cases hp : p.1 = k
    · subst hp
      simp [mlookup] at ha
      simp [mlookup, ha]
    · simp only [mlookup, hp, if_false] at ha
      simpa [mlookup, hp] using ih ha

/-- In `{**hypha_env, **user_env}` a key bound by the user env always
carries the user value. -/
theorem pyMerge_user_precedence (a b : List (String × String)) (k v : String)
    (hb : mlookup b k = some v) : mlookup (pyMerge a b) k = some v := by
  unfold pyMerge
  cases ha : mlookup a k with
  | none =>
    rw [mlookup_append_right _ (mlookup_mapMerge_none a b k ha)]
    rw [mlookup_filter_of_none a b k ha]
    exact hb
  | some w =>
    rw [mlookup_append_left _ (mlookup_mapMerge_some a b k w ha)]
    rw [hb]
    rfl

/-- **C7** counterexample: the conda-worker spec builder never reads the
manifest's `env` mapping — a user-supplied `HYPHA_WORKSPACE` override is
ignored (the injected value wins) and an unrelated user key is absent
from the container environment entirely. -/
theorem c7_env_counterexample :
    mlookup (condaWorkerEnv ⟨"ws", "cid", "http://w", "http://srv"⟩ "svc-1"
      { env := [("HYPHA_WORKSPACE", "user-ws"), ("FOO", "bar")] })
      "HYPHA_WORKSPACE" = some (.plain "ws") ∧
    mlookup (condaWorkerEnv ⟨"ws", "cid", "http://w", "http://srv"⟩ "svc-1"
      { env := [("HYPHA_WORKSPACE", "user-ws"), ("FOO", "bar")] })
      "FOO" = none := by
  constructor
  · rfl
  · rfl

/-- **C7 (amended)**: the agent-job spec builder merges the
worker-injected defaults with the manifest `env` and a key bound by the
user env always receives the user value in the container environment;
the environment-worker (conda) builder ignores the manifest `env`
entirely — its container environment does not depend on it. -/
theorem c7_env_amended (cfg : AgentCfg) (serviceId : String)
    (mf : AgentManifest) (mfc : CondaManifest) :
    (∀ k v, mlookup mf.env k = some v →
      mlookup (claudeAgentEnv cfg serviceId mf) k = some (.plain v)) ∧
    condaWorkerEnv cfg serviceId mfc =
      condaWorkerEnv cfg serviceId { mfc with env := [] } := by
  constructor
  · intro k v hk
    unfold claudeAgentEnv
    refine mlookup_append_left _ ?_
    rw [mlookup_map_plain]
    rw [pyMerge_user_precedence _ _ _ _ hk]
    rfl
  · rfl

/-- Witness for C7 (amended): a user-supplied `HYPHA_WORKSPACE` wins in
the agent-job container environment. -/
theorem c7_env_amended_witness :
    mlookup (claudeAgentEnv ⟨"ws", "cid", "http://w", "http://srv"⟩ "svc-1"
      { env := [("HYPHA_WORKSPACE", "user-ws")] }) "HYPHA_WORKSPACE" =
      some (.plain "user-ws") :=
  (c7_env_amended ⟨"ws", "cid", "http://w", "http://srv"⟩ "svc-1"
    { env := [("HYPHA_WORKSPACE", "user-ws")] } {}).1
    "HYPHA_WORKSPACE" "user-ws" rfl

/-! ### `execute` claim C9 and `get_logs` claim C10 -/

/-- **C9**: on a known session whose workload data carries a pod name,
`execute` never propagates a wall-clock timeout or a cluster-API error
as an exception: both are returned as a structured result with status
`"error"` and an error whose kind is `TimeoutError` respectively
`KubernetesApiError`, carrying the underlying message. -/
theorem c9_execute_structured_errors (s : WorkerState) (sid : String)
    (info : SessionInfoM) (d : SessionDataM) (p : String) (t : Nat) (m : String)
    (hs : mlookup s.sessions sid = some info)
    (hd : mlookup s.sessionData sid = some d)
    (hp : d.podName = some p) :
    executeFn s sid (.timedOut t) =
      .ok { status := "error", outputs := [],
            error := some ⟨"TimeoutError", timeoutMsg t, [timeoutMsg t]⟩ } ∧
    executeFn s sid (.apiErr m) =
      .ok { status := "error", outputs := [],
            error := some ⟨"KubernetesApiError", m,
              ["Kubernetes API error during command execution: " ++ m]⟩ } := by
  constructor
  · unfold executeFn
    rw [if_neg (by simp [hs]), hd]
    dsimp only
    rw [hp]
  · unfold executeFn
    rw [if_neg (by simp [hs]), hd]
    dsimp only
    rw [hp]

/-- Witness for C9 at a concrete running session. -/
theorem c9_execute_structured_errors_witness :
    executeFn ⟨[("e", ⟨.running, none⟩)],
        [("e", ⟨"hypha-job-e", some "pod-e", {}⟩)]⟩ "e" (.timedOut 30) =
      .ok ⟨"error", [], some ⟨"TimeoutError", timeoutMsg 30, [timeoutMsg 30]⟩⟩ ∧
    executeFn ⟨[("e", ⟨.running, none⟩)],
        [("e", ⟨"hypha-job-e", some "pod-e", {}⟩)]⟩ "e" (.apiErr "boom") =
      .ok ⟨"error", [], some ⟨"KubernetesApiError", "boom",
        ["Kubernetes API error during command execution: " ++ "boom"]⟩⟩ :=
  c9_execute_structured_errors _ "e" ⟨.running, none⟩
    ⟨"hypha-job-e", some "pod-e", {}⟩ "pod-e" 30 "boom" rfl rfl rfl

/-- **C10**: on a known session, `get_logs` returns the empty page with
total 0 when workload data is absent; otherwise the returned `total`
equals the number of items after type filtering and before pagination,
an offset at or beyond `total` yields an empty item list without error,
and an absent limit returns every item from the offset to the end. -/
theorem c10_get_logs_pagination (s : WorkerState) (sid : String)
    (info : SessionInfoM) (typ : Option String) (offset : Nat)
    (limit : Option Nat) (fetched : Option String)
    (hs : mlookup s.sessions sid = some info) :
    (mlookup s.sessionData sid = none →
      getLogsFn s sid typ offset limit fetched =
        .ok { items := [], total := 0, offset, limit }) ∧
    (∀ d, mlookup s.sessionData sid = some d →
      ∃ page, getLogsFn s sid typ offset limit fetched = .ok page ∧
        page.total =
          (filterItems typ (flattenLogs (effectiveLogs d fetched))).length ∧
        (page.total ≤ offset → page.items = []) ∧
        (limit = none → page.items =
          (filterItems typ (flattenLogs (effectiveLogs d fetched))).drop offset)) := by
  constructor
  · intro hdn
    unfold getLogsFn
    rw [if_neg (by simp [hs]), hdn]
  · intro d hd
    have hrun : getLogsFn s sid typ offset limit fetched =
        .ok ⟨(match limit with
            | none =>
              (filterItems typ (flattenLogs (effectiveLogs d fetched))).drop offset
            | some l =>
              ((filterItems typ (flattenLogs (effectiveLogs d fetched))).drop
                offset).take l),
          (filterItems typ (flattenLogs (effectiveLogs d fetched))).length,
          offset, limit⟩ := by
      unfold getLogsFn
      rw [if_neg (by simp [hs]), hd]
    refine ⟨_, hrun, rfl, ?_, ?_⟩
    · intro hoff
      cases limit with
      | none =>
        exact List.drop_eq_nil_of_le hoff
      | some l =>
        show ((filterItems typ (flattenLogs (effectiveLogs d fetched))).drop
          offset).take l = []
        rw [List.drop_eq_nil_of_le hoff, List.take_nil]
    · intro hlim
      subst hlim
      rfl

/-- Witness for C10 at a concrete session with one info log entry. -/
theorem c10_get_logs_pagination_witness :
    (mlookup (WorkerState.mk [("g", ⟨.running, none⟩)]
        [("g", ⟨"hypha-job-g", none, ⟨[], [], ["started"], [], []⟩⟩)]).sessionData
        "g" = none →
      getLogsFn ⟨[("g", ⟨.running, none⟩)],
          [("g", ⟨"hypha-job-g", none, ⟨[], [], ["started"], [], []⟩⟩)]⟩
        "g" none 0 none none = .ok ⟨[], 0, 0, none⟩) ∧
    (∀ d, mlookup (WorkerState.mk [("g", ⟨.running, none⟩)]
        [("g", ⟨"hypha-job-g", none, ⟨[], [], ["started"], [], []⟩⟩)]).sessionData
        "g" = some d →
      ∃ page, getLogsFn ⟨[("g", ⟨.running, none⟩)],
          [("g", ⟨"hypha-job-g", none, ⟨[], [], ["started"], [], []⟩⟩)]⟩
        "g" none 0 none none = .ok page ∧
        page.total = (filterItems none (flattenLogs (effectiveLogs d none))).length ∧
        (page.total ≤ 0 → page.items = []) ∧
        (none = (none : Option Nat) → page.items =
          (filterItems none (flattenLogs (effectiveLogs d none))).drop 0)) :=
  c10_get_logs_pagination ⟨[("g", ⟨.running, none⟩)],
      [("g", ⟨"hypha-job-g", none, ⟨[], [], ["started"], [], []⟩⟩)]⟩
    "g" ⟨.running, none⟩ none 0 none none rfl

end K8s
